import Mathlib

/-!
Verification of the pose-analysis core of the AI-Health-Trainer repository.

The embedding translates the pure computational core of
`src/core/pose_estimation.py`, `src/models/utils/feature_extraction.py`,
`src/models/inference/exercise_classifier.py` and
`src/models/inference/body_analyzer.py` into Lean.

Numeric conventions of the embedding:
* Python/numpy floats are modelled as real numbers (`ℝ`).
* numpy produces NaN (not an exception) when a zero-length vector is
  normalized: every component of the normalized vector is `0/0 = NaN`, the
  dot product and `arccos` propagate NaN, and every comparison against NaN
  is false.  A possibly-NaN float is modelled as `Option ℝ` with `none`
  standing for NaN, and the comparison / `min` helpers below reproduce the
  IEEE comparison rules the Python code relies on.
-/

open Classical

namespace HealthTrainer

/-- One MediaPipe pose landmark: normalized coordinates plus a visibility
score (`results.pose_landmarks.landmark[i]`). -/
structure Landmark where
  x : ℝ
  y : ℝ
  z : ℝ
  visibility : ℝ

/-- A detected pose: the fixed 33-entry MediaPipe landmark list. -/
abbrev Frame := Fin 33 → Landmark

/-! MediaPipe `PoseLandmark` indices used by the core (the enumeration is
fixed by MediaPipe and never reordered). -/

def LEFT_SHOULDER : Fin 33 := 11
def RIGHT_SHOULDER : Fin 33 := 12
def LEFT_ELBOW : Fin 33 := 13
def RIGHT_ELBOW : Fin 33 := 14
def LEFT_WRIST : Fin 33 := 15
def RIGHT_WRIST : Fin 33 := 16
def LEFT_HIP : Fin 33 := 23
def RIGHT_HIP : Fin 33 := 24
def LEFT_KNEE : Fin 33 := 25
def RIGHT_KNEE : Fin 33 := 26
def LEFT_ANKLE : Fin 33 := 27
def RIGHT_ANKLE : Fin 33 := 28

/-- `np.clip x lo hi`. -/
noncomputable def clip (x lo hi : ℝ) : ℝ := min (max x lo) hi

/-- 3D Euclidean distance between two landmarks.
Embeds `PoseEstimator._calculate_distance` (src/core/pose_estimation.py
lines 171-186) and the identical `calculate_distance`
(src/models/utils/feature_extraction.py lines 184-199). -/
noncomputable def calculate_distance (p1 p2 : Landmark) : ℝ :=
  Real.sqrt ((p1.x - p2.x) ^ 2 + (p1.y - p2.y) ^ 2 + (p1.z - p2.z) ^ 2)

/-- Angle (in degrees) at vertex `p2`, from the 2D vectors `p1 - p2` and
`p3 - p2` (z is ignored), with the normalized dot product clipped to
`[-1, 1]` before `arccos`.
Embeds `PoseEstimator._calculate_angle` (src/core/pose_estimation.py lines
431-457) and the identical `calculate_angle`
(src/models/utils/feature_extraction.py lines 156-182).
When a vector has zero magnitude, numpy's normalization yields NaN
components (`0/0`) and NaN propagates through `dot`, `clip`, `arccos` and
`degrees`; the NaN result is modelled as `none`. -/
noncomputable def calculate_angle (p1 p2 p3 : Landmark) : Option ℝ :=
  let v1x := p1.x - p2.x
  let v1y := p1.y - p2.y
  let v2x := p3.x - p2.x
  let v2y := p3.y - p2.y
  let n1 := Real.sqrt (v1x ^ 2 + v1y ^ 2)
  let n2 := Real.sqrt (v2x ^ 2 + v2y ^ 2)
  if n1 = 0 ∨ n2 = 0 then none
  else
    some (Real.arccos (clip (v1x / n1 * (v2x / n2) + v1y / n1 * (v2y / n2)) (-1) 1)
      * 180 / Real.pi)

/-- Colinearity test: absolute value of the normalized dot product of the
2D vectors `p1 - p2` and `p3 - p2` exceeds the hard-coded threshold `0.9`.
Embeds `PoseEstimator._check_alignment` (src/core/pose_estimation.py lines
459-483).  When a vector has zero magnitude the dot product is NaN and
`NaN > 0.9` is false in IEEE arithmetic; the first conjunct encodes this. -/
def check_alignment (p1 p2 p3 : Landmark) : Prop :=
  let v1x := p1.x - p2.x
  let v1y := p1.y - p2.y
  let v2x := p3.x - p2.x
  let v2y := p3.y - p2.y
  let n1 := Real.sqrt (v1x ^ 2 + v1y ^ 2)
  let n2 := Real.sqrt (v2x ^ 2 + v2y ^ 2)
  ¬(n1 = 0 ∨ n2 = 0) ∧ |v1x / n1 * (v2x / n2) + v1y / n1 * (v2y / n2)| > 0.9

/-- Python's binary `min` on possibly-NaN floats: `min(a, b)` is `b` if
`b < a` else `a`, and every comparison involving NaN is false, so
`min(NaN, x) = NaN` and `min(x, NaN) = x`. -/
noncomputable def pyMin (a b : Option ℝ) : Option ℝ :=
  match b with
  | none => a
  | some y =>
    match a with
    | none => none
    | some x => some (if y < x then y else x)

/-- `a < c` for a possibly-NaN float `a`: false when `a` is NaN. -/
def optLt (a : Option ℝ) (c : ℝ) : Prop :=
  match a with
  | none => False
  | some x => x < c

/-- `a >= c` for a possibly-NaN float `a`: false when `a` is NaN. -/
def optGe (a : Option ℝ) (c : ℝ) : Prop :=
  match a with
  | none => False
  | some x => x ≥ c

/-! ### Basic evaluation lemmas for the geometry kernel -/

lemma sqrt_sum_sq_eq_zero_iff (a b : ℝ) :
    Real.sqrt (a ^ 2 + b ^ 2) = 0 ↔ a = 0 ∧ b = 0 := by
  rw [Real.sqrt_eq_zero (by positivity)]
  constructor
  · intro h
    constructor <;> nlinarith [sq_nonneg a, sq_nonneg b]
  · rintro ⟨ha, hb⟩
    rw [ha, hb]; ring

lemma pyMin_some_some (x y : ℝ) : pyMin (some x) (some y) = some (min x y) := by
  show some (if y < x then y else x) = some (min x y)
  rcases lt_or_le y x with h | h
  · rw [if_pos h, min_eq_right h.le]
  · rw [if_neg (not_lt.mpr h), min_eq_left h]

/-- Landmark literal in the x,y plane (z = 0, visibility = 0), used for
concrete test inputs. -/
def lm (a b : ℝ) : Landmark := ⟨a, b, 0, 0⟩

@[simp] lemma lm_x (a b : ℝ) : (lm a b).x = a := rfl

@[simp] lemma lm_y (a b : ℝ) : (lm a b).y = b := rfl

@[simp] lemma lm_z (a b : ℝ) : (lm a b).z = 0 := rfl

@[simp] lemma lm_visibility (a b : ℝ) : (lm a b).visibility = 0 := rfl

lemma sqrt_four : Real.sqrt 4 = 2 := by
  rw [show (4 : ℝ) = 2 ^ 2 by norm_num, Real.sqrt_sq (by norm_num)]

lemma calculate_angle_eval (p1 p2 p3 : Landmark) (n1 n2 : ℝ)
    (h1 : Real.sqrt ((p1.x - p2.x) ^ 2 + (p1.y - p2.y) ^ 2) = n1)
    (h2 : Real.sqrt ((p3.x - p2.x) ^ 2 + (p3.y - p2.y) ^ 2) = n2)
    (hn1 : n1 ≠ 0) (hn2 : n2 ≠ 0) :
    calculate_angle p1 p2 p3 =
      some (Real.arccos (clip ((p1.x - p2.x) / n1 * ((p3.x - p2.x) / n2) +
        (p1.y - p2.y) / n1 * ((p3.y - p2.y) / n2)) (-1) 1) * 180 / Real.pi) := by
  simp only [calculate_angle, h1, h2]
  rw [if_neg (not_or.mpr ⟨hn1, hn2⟩)]

lemma check_alignment_iff (p1 p2 p3 : Landmark) (n1 n2 : ℝ)
    (h1 : Real.sqrt ((p1.x - p2.x) ^ 2 + (p1.y - p2.y) ^ 2) = n1)
    (h2 : Real.sqrt ((p3.x - p2.x) ^ 2 + (p3.y - p2.y) ^ 2) = n2)
    (hn1 : n1 ≠ 0) (hn2 : n2 ≠ 0) :
    check_alignment p1 p2 p3 ↔
      |(p1.x - p2.x) / n1 * ((p3.x - p2.x) / n2) +
        (p1.y - p2.y) / n1 * ((p3.y - p2.y) / n2)| > 0.9 := by
  simp only [check_alignment, h1, h2]
  constructor
  · rintro ⟨-, h⟩; exact h
  · intro h; exact ⟨not_or.mpr ⟨hn1, hn2⟩, h⟩

lemma angle_90 : calculate_angle (lm 1 0) (lm 0 0) (lm 0 1) = some 90 := by
  rw [calculate_angle_eval _ _ _ 1 1 (by norm_num) (by norm_num) one_ne_zero one_ne_zero]
  norm_num [clip, Real.arccos_zero]
  field_simp
  ring

lemma angle_180 : calculate_angle (lm 1 0) (lm 0 0) (lm (-1) 0) = some 180 := by
  rw [calculate_angle_eval _ _ _ 1 1 (by norm_num) (by norm_num) one_ne_zero one_ne_zero]
  norm_num [clip, Real.arccos_neg_one]
  field_simp

lemma angle_mid180 : calculate_angle (lm 0 0) (lm 1 0) (lm 2 0) = some 180 := by
  rw [calculate_angle_eval _ _ _ 1 1 (by norm_num) (by norm_num) one_ne_zero one_ne_zero]
  norm_num [clip, Real.arccos_neg_one]
  field_simp

lemma align_vert : check_alignment (lm 0 0) (lm 0 1) (lm 0 2) := by
  rw [check_alignment_iff _ _ _ 1 1 (by norm_num) (by norm_num) one_ne_zero one_ne_zero]
  norm_num

lemma align_opp_dir : check_alignment (lm 0 0) (lm 1 0) (lm 2 0) := by
  rw [check_alignment_iff _ _ _ 1 1 (by norm_num) (by norm_num) one_ne_zero one_ne_zero]
  norm_num

lemma align_same_dir : check_alignment (lm 2 0) (lm 0 0) (lm 1 0) := by
  rw [check_alignment_iff _ _ _ 2 1 (by norm_num [sqrt_four]) (by norm_num)
    two_ne_zero one_ne_zero]
  norm_num

lemma align_right_angle : ¬ check_alignment (lm 1 0) (lm 0 0) (lm 0 1) := by
  rw [check_alignment_iff _ _ _ 1 1 (by norm_num) (by norm_num) one_ne_zero one_ne_zero]
  norm_num

/-- C3: applying `angle` or `is_aligned` to three points where one of the two
constructed 2D vectors (`p1 - vertex` or `p3 - vertex`) has zero magnitude
raises no unhandled numeric exception: the angle is the NaN sentinel
(`none`) and the alignment test is false, for every such degenerate input. -/
theorem degenerate_geometry_safe :
    ∀ p1 p2 p3 : Landmark,
      (p1.x - p2.x = 0 ∧ p1.y - p2.y = 0) ∨ (p3.x - p2.x = 0 ∧ p3.y - p2.y = 0) →
      calculate_angle p1 p2 p3 = none ∧ ¬ check_alignment p1 p2 p3 := by
  rintro p1 p2 p3 h
  have hz : Real.sqrt ((p1.x - p2.x) ^ 2 + (p1.y - p2.y) ^ 2) = 0 ∨
      Real.sqrt ((p3.x - p2.x) ^ 2 + (p3.y - p2.y) ^ 2) = 0 := by
    rcases h with h | h
    · exact Or.inl ((sqrt_sum_sq_eq_zero_iff _ _).mpr h)
    · exact Or.inr ((sqrt_sum_sq_eq_zero_iff _ _).mpr h)
  constructor
  · simp only [calculate_angle]
    rw [if_pos hz]
  · intro hc
    simp only [check_alignment] at hc
    exact hc.1 hz

/-- Witness for C3 at a concrete degenerate input: `p1` and the vertex
coincide. -/
theorem degenerate_geometry_safe_witness :
    calculate_angle (lm 0 0) (lm 0 0) (lm 1 0) = none ∧
      ¬ check_alignment (lm 0 0) (lm 0 0) (lm 1 0) :=
  degenerate_geometry_safe _ _ _ (Or.inl (by norm_num))

/-- C4: for non-degenerate vectors, `angle` uses only the x and y
coordinates (z and visibility are ignored), always returns a defined value
in `[0, 180]` degrees, and in particular
`angle((1,0), (0,0), (0,1)) = 90` and `angle((1,0), (0,0), (-1,0)) = 180`. -/
theorem angle_spec :
    (∀ p1 p2 p3 q1 q2 q3 : Landmark,
      p1.x = q1.x → p1.y = q1.y → p2.x = q2.x → p2.y = q2.y →
      p3.x = q3.x → p3.y = q3.y →
      calculate_angle p1 p2 p3 = calculate_angle q1 q2 q3) ∧
    (∀ p1 p2 p3 : Landmark,
      ¬(p1.x - p2.x = 0 ∧ p1.y - p2.y = 0) →
      ¬(p3.x - p2.x = 0 ∧ p3.y - p2.y = 0) →
      ∃ θ : ℝ, calculate_angle p1 p2 p3 = some θ ∧ 0 ≤ θ ∧ θ ≤ 180) ∧
    calculate_angle (lm 1 0) (lm 0 0) (lm 0 1) = some 90 ∧
    calculate_angle (lm 1 0) (lm 0 0) (lm (-1) 0) = some 180 := by
  refine ⟨?_, ?_, angle_90, angle_180⟩
  · intro p1 p2 p3 q1 q2 q3 hx1 hy1 hx2 hy2 hx3 hy3
    simp only [calculate_angle, hx1, hy1, hx2, hy2, hx3, hy3]
  · intro p1 p2 p3 h1 h2
    have hn1 : Real.sqrt ((p1.x - p2.x) ^ 2 + (p1.y - p2.y) ^ 2) ≠ 0 := by
      rw [Ne, sqrt_sum_sq_eq_zero_iff]; exact h1
    have hn2 : Real.sqrt ((p3.x - p2.x) ^ 2 + (p3.y - p2.y) ^ 2) ≠ 0 := by
      rw [Ne, sqrt_sum_sq_eq_zero_iff]; exact h2
    rw [calculate_angle_eval _ _ _ _ _ rfl rfl hn1 hn2]
    refine ⟨_, rfl, ?_, ?_⟩
    · exact div_nonneg (mul_nonneg (Real.arccos_nonneg _) (by norm_num)) Real.pi_pos.le
    · calc Real.arccos _ * 180 / Real.pi ≤ Real.pi * 180 / Real.pi := by
            gcongr
            exact Real.arccos_le_pi _
        _ = 180 := by field_simp

/-- C5: `is_aligned` holds exactly when the absolute normalized dot product
of the 2D vectors `p1 - p2` and `p3 - p2` exceeds `0.9`; it is
direction-independent (colinear points pass whether the two vectors point
the same way or opposite ways) and a right angle fails. -/
theorem alignment_spec :
    (∀ p1 p2 p3 : Landmark,
      ¬(p1.x - p2.x = 0 ∧ p1.y - p2.y = 0) →
      ¬(p3.x - p2.x = 0 ∧ p3.y - p2.y = 0) →
      (check_alignment p1 p2 p3 ↔
        |(p1.x - p2.x) / Real.sqrt ((p1.x - p2.x) ^ 2 + (p1.y - p2.y) ^ 2) *
            ((p3.x - p2.x) / Real.sqrt ((p3.x - p2.x) ^ 2 + (p3.y - p2.y) ^ 2)) +
          (p1.y - p2.y) / Real.sqrt ((p1.x - p2.x) ^ 2 + (p1.y - p2.y) ^ 2) *
            ((p3.y - p2.y) / Real.sqrt ((p3.x - p2.x) ^ 2 + (p3.y - p2.y) ^ 2))| > 0.9)) ∧
    check_alignment (lm 0 0) (lm 1 0) (lm 2 0) ∧
    check_alignment (lm 2 0) (lm 0 0) (lm 1 0) ∧
    ¬ check_alignment (lm 1 0) (lm 0 0) (lm 0 1) := by
  refine ⟨?_, align_opp_dir, align_same_dir, align_right_angle⟩
  intro p1 p2 p3 h1 h2
  have hn1 : Real.sqrt ((p1.x - p2.x) ^ 2 + (p1.y - p2.y) ^ 2) ≠ 0 := by
    rw [Ne, sqrt_sum_sq_eq_zero_iff]; exact h1
  have hn2 : Real.sqrt ((p3.x - p2.x) ^ 2 + (p3.y - p2.y) ^ 2) ≠ 0 := by
    rw [Ne, sqrt_sum_sq_eq_zero_iff]; exact h2
  exact check_alignment_iff _ _ _ _ _ rfl rfl hn1 hn2

/-! ### FormVerdict and the per-exercise rule engine
(`PoseEstimator.analyze_exercise_form` and the four `_analyze_*_form`
helpers, src/core/pose_estimation.py lines 188-429). -/

/-- A value of the `metrics` dict: a float (possibly NaN) or a bool. -/
inductive MetricVal where
  | num (v : Option ℝ)
  | flag (b : Prop)

/-- The dict returned by `analyze_exercise_form`: `correct` and `feedback`
are always present; the `metrics` key is present (`some`) only when the
branch taken actually puts it in the dict. -/
structure FormVerdict where
  correct : Prop
  feedback : String
  metrics : Option (List (String × MetricVal))

/-- `" ".join(feedback)`. -/
def joinSpace (l : List String) : String := String.intercalate " " l

/-- Embeds `PoseEstimator._analyze_pushup_form`
(src/core/pose_estimation.py lines 216-267). -/
noncomputable def analyze_pushup_form (f : Frame) : FormVerdict :=
  let elbow_angle := pyMin
    (calculate_angle (f LEFT_SHOULDER) (f LEFT_ELBOW) (f LEFT_WRIST))
    (calculate_angle (f RIGHT_SHOULDER) (f RIGHT_ELBOW) (f RIGHT_WRIST))
  let back_straightness :=
    check_alignment (f LEFT_SHOULDER) (f LEFT_HIP) (f LEFT_ANKLE) ∧
      check_alignment (f RIGHT_SHOULDER) (f RIGHT_HIP) (f RIGHT_ANKLE)
  let correct := optLt elbow_angle 100 ∧ back_straightness
  let feedback :=
    (if ¬ back_straightness then ["Keep your back straight and core engaged."] else []) ++
      (if optGe elbow_angle 100 then
        ["Lower your body more, aim for a 90-degree bend in your elbows."] else [])
  let feedback := if feedback = [] then ["Great form! Keep it up."] else feedback
  { correct := correct
    feedback := joinSpace feedback
    metrics := some [("elbow_angle", MetricVal.num elbow_angle),
      ("back_straight", MetricVal.flag back_straightness)] }

/-- Embeds `PoseEstimator._analyze_squat_form`
(src/core/pose_estimation.py lines 269-323). -/
noncomputable def analyze_squat_form (f : Frame) : FormVerdict :=
  let knee_angle := pyMin
    (calculate_angle (f LEFT_HIP) (f LEFT_KNEE) (f LEFT_ANKLE))
    (calculate_angle (f RIGHT_HIP) (f RIGHT_KNEE) (f RIGHT_ANKLE))
  let back_straight :=
    |(f LEFT_SHOULDER).x - (f LEFT_HIP).x| < 0.1 ∧
      |(f RIGHT_SHOULDER).x - (f RIGHT_HIP).x| < 0.1
  let knees_over_toes :=
    (f LEFT_KNEE).x < (f LEFT_ANKLE).x ∧ (f RIGHT_KNEE).x < (f RIGHT_ANKLE).x
  let correct := optLt knee_angle 120 ∧ back_straight ∧ knees_over_toes
  let feedback :=
    (if ¬ back_straight then ["Keep your back straight and chest up."] else []) ++
      (if optGe knee_angle 120 then
        ["Lower your hips more, aim for a 90-degree bend in your knees."] else []) ++
      (if ¬ knees_over_toes then ["Keep your knees behind your toes."] else [])
  let feedback := if feedback = [] then ["Great squat form! Keep it up."] else feedback
  { correct := correct
    feedback := joinSpace feedback
    metrics := some [("knee_angle", MetricVal.num knee_angle),
      ("back_straight", MetricVal.flag back_straight),
      ("knees_over_toes", MetricVal.flag knees_over_toes)] }

/-- Embeds `PoseEstimator._analyze_plank_form`
(src/core/pose_estimation.py lines 325-373). -/
noncomputable def analyze_plank_form (f : Frame) : FormVerdict :=
  let body_alignment :=
    check_alignment (f LEFT_SHOULDER) (f LEFT_HIP) (f LEFT_ANKLE) ∧
      check_alignment (f RIGHT_SHOULDER) (f RIGHT_HIP) (f RIGHT_ANKLE)
  let hip_position :=
    |(f LEFT_HIP).y - (f LEFT_SHOULDER).y| < 0.1 ∧
      |(f RIGHT_HIP).y - (f RIGHT_SHOULDER).y| < 0.1
  let correct := body_alignment ∧ hip_position
  let feedback :=
    (if ¬ body_alignment then ["Maintain a straight line from head to heels."] else []) ++
      (if ¬ hip_position then
        (if (f LEFT_HIP).y < (f LEFT_SHOULDER).y then
          ["Lower your hips, they\x27re too high."]
        else ["Raise your hips, they\x27re too low."]) else [])
  let feedback := if feedback = [] then ["Great plank form! Hold it steady."] else feedback
  { correct := correct
    feedback := joinSpace feedback
    metrics := some [("body_alignment", MetricVal.flag body_alignment),
      ("hip_position", MetricVal.flag hip_position)] }

/-- Embeds `PoseEstimator._analyze_lunge_form`
(src/core/pose_estimation.py lines 375-429). -/
noncomputable def analyze_lunge_form (f : Frame) : FormVerdict :=
  let front_knee_angle := pyMin
    (calculate_angle (f LEFT_HIP) (f LEFT_KNEE) (f LEFT_ANKLE))
    (calculate_angle (f RIGHT_HIP) (f RIGHT_KNEE) (f RIGHT_ANKLE))
  let torso_upright :=
    |(f LEFT_SHOULDER).x - (f LEFT_HIP).x| < 0.1 ∧
      |(f RIGHT_SHOULDER).x - (f RIGHT_HIP).x| < 0.1
  let knee_ankle_alignment :=
    |(f LEFT_KNEE).x - (f LEFT_ANKLE).x| < 0.1 ∨
      |(f RIGHT_KNEE).x - (f RIGHT_ANKLE).x| < 0.1
  let correct := optLt front_knee_angle 110 ∧ torso_upright ∧ knee_ankle_alignment
  let feedback :=
    (if ¬ torso_upright then ["Keep your torso upright."] else []) ++
      (if optGe front_knee_angle 110 then
        ["Lower your body more, aim for a 90-degree bend in your front knee."] else []) ++
      (if ¬ knee_ankle_alignment then
        ["Align your front knee over your ankle, not past your toes."] else [])
  let feedback := if feedback = [] then ["Great lunge form! Keep it up."] else feedback
  { correct := correct
    feedback := joinSpace feedback
    metrics := some [("front_knee_angle", MetricVal.num front_knee_angle),
      ("torso_upright", MetricVal.flag torso_upright),
      ("knee_ankle_alignment", MetricVal.flag knee_ankle_alignment)] }

/-- Embeds `PoseEstimator.analyze_exercise_form`
(src/core/pose_estimation.py lines 188-214).  A `results` value with no
detected pose is `none`; the no-pose and unknown-exercise dicts carry no
`metrics` key. -/
noncomputable def analyze_exercise_form (results : Option Frame)
    (exercise_type : String) : FormVerdict :=
  match results with
  | none =>
    { correct := False
      feedback := "No pose detected. Please ensure your full body is visible."
      metrics := none }
  | some f =>
    if exercise_type = "Push-up" then analyze_pushup_form f
    else if exercise_type = "Squat" then analyze_squat_form f
    else if exercise_type = "Plank" then analyze_plank_form f
    else if exercise_type = "Lunge" then analyze_lunge_form f
    else
      { correct := False
        feedback := "Analysis for " ++ exercise_type ++ " not implemented yet."
        metrics := none }

/-- The source's `back_straightness` for a push-up (pose_estimation.py
lines 244-245): shoulder-hip-ankle aligned on both sides. -/
def pushup_back_straight (f : Frame) : Prop :=
  check_alignment (f LEFT_SHOULDER) (f LEFT_HIP) (f LEFT_ANKLE) ∧
    check_alignment (f RIGHT_SHOULDER) (f RIGHT_HIP) (f RIGHT_ANKLE)

lemma calculate_angle_none_of_zero (p1 p2 p3 : Landmark)
    (h : Real.sqrt ((p1.x - p2.x) ^ 2 + (p1.y - p2.y) ^ 2) = 0 ∨
      Real.sqrt ((p3.x - p2.x) ^ 2 + (p3.y - p2.y) ^ 2) = 0) :
    calculate_angle p1 p2 p3 = none := by
  simp only [calculate_angle]
  rw [if_pos h]

lemma check_alignment_not_of_zero (p1 p2 p3 : Landmark)
    (h : Real.sqrt ((p1.x - p2.x) ^ 2 + (p1.y - p2.y) ^ 2) = 0 ∨
      Real.sqrt ((p3.x - p2.x) ^ 2 + (p3.y - p2.y) ^ 2) = 0) :
    ¬ check_alignment p1 p2 p3 := by
  intro hc
  simp only [check_alignment] at hc
  exact hc.1 h

/-- C1 (amended to frames on which both elbow angles are defined, i.e. the
shoulder-elbow and wrist-elbow vectors are non-degenerate): the Push-up
verdict has `correct` true iff the minimum of the two elbow angles is
below 100 degrees and shoulder-hip-ankle are aligned on both sides; the
feedback is the space-joined concatenation of the back-straightness message
(if alignment fails) followed by the elbow-angle message (if the minimum
elbow angle is at least 100), the positive affirmation when correct, and
the metrics report `elbow_angle` (the minimum) and `back_straight`. -/
theorem pushup_verdict_spec (f : Frame) (al ar : ℝ)
    (hl : calculate_angle (f LEFT_SHOULDER) (f LEFT_ELBOW) (f LEFT_WRIST) = some al)
    (hr : calculate_angle (f RIGHT_SHOULDER) (f RIGHT_ELBOW) (f RIGHT_WRIST) = some ar) :
    ((analyze_pushup_form f).correct ↔ min al ar < 100 ∧ pushup_back_straight f) ∧
    (analyze_pushup_form f).metrics =
      some [("elbow_angle", MetricVal.num (some (min al ar))),
        ("back_straight", MetricVal.flag (pushup_back_straight f))] ∧
    (pushup_back_straight f ∧ min al ar < 100 →
      (analyze_pushup_form f).feedback = "Great form! Keep it up.") ∧
    (¬ pushup_back_straight f ∧ min al ar < 100 →
      (analyze_pushup_form f).feedback = "Keep your back straight and core engaged.") ∧
    (pushup_back_straight f ∧ 100 ≤ min al ar →
      (analyze_pushup_form f).feedback =
        "Lower your body more, aim for a 90-degree bend in your elbows.") ∧
    (¬ pushup_back_straight f ∧ 100 ≤ min al ar →
      (analyze_pushup_form f).feedback =
        "Keep your back straight and core engaged." ++ " " ++
          "Lower your body more, aim for a 90-degree bend in your elbows.") := by
  have hmin : pyMin (calculate_angle (f LEFT_SHOULDER) (f LEFT_ELBOW) (f LEFT_WRIST))
      (calculate_angle (f RIGHT_SHOULDER) (f RIGHT_ELBOW) (f RIGHT_WRIST)) =
      some (min al ar) := by rw [hl, hr, pyMin_some_some]
  simp only [analyze_pushup_form, hmin, optLt, optGe, pushup_back_straight, joinSpace]
  refine ⟨by trivial, by trivial, ?_, ?_, ?_, ?_⟩
  · rintro ⟨hb, hm⟩
    rw [if_neg (not_not_intro hb), if_neg (not_le.mpr hm)]
    rfl
  · rintro ⟨hb, hm⟩
    rw [if_pos hb, if_neg (not_le.mpr hm)]
    rfl
  · rintro ⟨hb, hm⟩
    rw [if_neg (not_not_intro hb), if_pos hm]
    rfl
  · rintro ⟨hb, hm⟩
    rw [if_pos hb, if_pos hm]
    rfl

/-- The concrete frame refuting C1 as universally stated: both elbow
vectors are degenerate (shoulders, elbows and wrists all coincide), while
shoulder-hip-ankle are exactly colinear on both sides. -/
def cex_pushup_frame : Frame := fun i =>
  if i.val = 23 ∨ i.val = 24 then lm 0 1
  else if i.val = 27 ∨ i.val = 28 then lm 0 2
  else lm 0 0

/-- Counterexample to C1 as stated: on `cex_pushup_frame` the elbow angles
are NaN, so `correct` is false, yet the back is aligned and neither
feedback trigger fires (NaN comparisons are false), so the feedback is the
positive affirmation — not the space-joined concatenation of triggered
messages (which would be empty) that the claim requires for an incorrect
verdict. -/
theorem pushup_nan_feedback_cex :
    ¬ (analyze_pushup_form cex_pushup_frame).correct ∧
      pushup_back_straight cex_pushup_frame ∧
      (analyze_pushup_form cex_pushup_frame).feedback = "Great form! Keep it up." := by
  have hl : calculate_angle (cex_pushup_frame LEFT_SHOULDER) (cex_pushup_frame LEFT_ELBOW)
      (cex_pushup_frame LEFT_WRIST) = none := by
    apply calculate_angle_none_of_zero
    left
    show Real.sqrt (((lm 0 0).x - (lm 0 0).x) ^ 2 + ((lm 0 0).y - (lm 0 0).y) ^ 2) = 0
    norm_num
  have hr : calculate_angle (cex_pushup_frame RIGHT_SHOULDER) (cex_pushup_frame RIGHT_ELBOW)
      (cex_pushup_frame RIGHT_WRIST) = none := by
    apply calculate_angle_none_of_zero
    left
    show Real.sqrt (((lm 0 0).x - (lm 0 0).x) ^ 2 + ((lm 0 0).y - (lm 0 0).y) ^ 2) = 0
    norm_num
  have hb : pushup_back_straight cex_pushup_frame := by
    unfold pushup_back_straight
    constructor
    · exact align_vert
    · exact align_vert
  refine ⟨?_, hb, ?_⟩
  · simp only [analyze_pushup_form, hl, hr]
    rintro ⟨hlt, -⟩
    exact hlt
  · simp only [analyze_pushup_form, hl, hr, joinSpace]
    unfold pushup_back_straight at hb
    rw [if_neg (not_not_intro hb), if_neg (show ¬ optGe (pyMin none none) 100 from id)]
    rfl

/-- The concrete frame for C1's witness: both elbow angles are 180 degrees
(shoulder, elbow, wrist colinear with the elbow in the middle) and the back
is aligned on both sides. -/
def wit_pushup_frame : Frame := fun i =>
  if i.val = 13 ∨ i.val = 14 then lm 1 0
  else if i.val = 15 ∨ i.val = 16 then lm 2 0
  else if i.val = 23 ∨ i.val = 24 then lm 0 1
  else if i.val = 27 ∨ i.val = 28 then lm 0 2
  else lm 0 0

/-- Witness for C1 at a concrete frame: elbow angles 180 ≥ 100 with the
back aligned, so the feedback is exactly the elbow-angle message. -/
theorem pushup_verdict_spec_witness :
    (analyze_pushup_form wit_pushup_frame).feedback =
      "Lower your body more, aim for a 90-degree bend in your elbows." := by
  have hl : calculate_angle (wit_pushup_frame LEFT_SHOULDER) (wit_pushup_frame LEFT_ELBOW)
      (wit_pushup_frame LEFT_WRIST) = some 180 := angle_mid180
  have hr : calculate_angle (wit_pushup_frame RIGHT_SHOULDER) (wit_pushup_frame RIGHT_ELBOW)
      (wit_pushup_frame RIGHT_WRIST) = some 180 := angle_mid180
  have hb : pushup_back_straight wit_pushup_frame := by
    unfold pushup_back_straight
    constructor
    · exact align_vert
    · exact align_vert
  exact (pushup_verdict_spec wit_pushup_frame 180 180 hl hr).2.2.2.2.1
    ⟨hb, by norm_num [min_self]⟩

/-- A frame with every landmark at the origin. -/
def const_frame : Frame := fun _ => lm 0 0

/-- C6 (amended): every verdict carries `correct` and `feedback`; the
`metrics` mapping is present exactly for the four implemented exercises on
a present frame, while the no-pose and unknown-exercise verdicts omit it.
An unknown exercise type yields an incorrect verdict with feedback
"Analysis for <type> not implemented yet." rather than an error, and an
absent frame yields an incorrect verdict with feedback
"No pose detected. Please ensure your full body is visible.". -/
theorem analyze_dispatch_spec :
    (∀ t : String,
      ¬ (analyze_exercise_form none t).correct ∧
      (analyze_exercise_form none t).feedback =
        "No pose detected. Please ensure your full body is visible." ∧
      (analyze_exercise_form none t).metrics = none) ∧
    (∀ (f : Frame) (t : String),
      t ≠ "Push-up" → t ≠ "Squat" → t ≠ "Plank" → t ≠ "Lunge" →
      ¬ (analyze_exercise_form (some f) t).correct ∧
      (analyze_exercise_form (some f) t).feedback =
        "Analysis for " ++ t ++ " not implemented yet." ∧
      (analyze_exercise_form (some f) t).metrics = none) ∧
    (∀ f : Frame,
      (analyze_exercise_form (some f) ("Push-up")).metrics.isSome ∧
      (analyze_exercise_form (some f) ("Squat")).metrics.isSome ∧
      (analyze_exercise_form (some f) ("Plank")).metrics.isSome ∧
      (analyze_exercise_form (some f) ("Lunge")).metrics.isSome) := by
  refine ⟨?_, ?_, ?_⟩
  · intro t
    exact ⟨not_false, rfl, rfl⟩
  · intro f t h1 h2 h3 h4
    simp only [analyze_exercise_form, if_neg h1, if_neg h2, if_neg h3, if_neg h4]
    exact ⟨not_false, by trivial, by trivial⟩
  · intro f
    refine ⟨?_, ?_, ?_, ?_⟩ <;>
      simp [analyze_exercise_form, analyze_pushup_form, analyze_squat_form,
        analyze_plank_form, analyze_lunge_form]

/-- Counterexample to C6 as stated: the no-pose verdict and the
unknown-exercise verdict contain no `metrics` mapping at all (the source
dicts carry only the `correct` and `feedback` keys). -/
theorem analyze_metrics_missing_cex :
    (analyze_exercise_form none ("Push-up")).metrics = none ∧
      (analyze_exercise_form (some const_frame) ("Yoga")).metrics = none := by
  constructor
  · rfl
  · simp [analyze_exercise_form]

/-! ### Body measurements and the body-type rule
(`PoseEstimator.calculate_body_measurements`, src/core/pose_estimation.py
lines 115-169, and `BodyAnalyzer._rule_based_classification`,
src/models/inference/body_analyzer.py lines 83-100). -/

/-- The body-type branch of `calculate_body_measurements`
(src/core/pose_estimation.py lines 154-160) as a function of the
shoulder-hip ratio. -/
noncomputable def body_type_from_ratio (r : ℝ) : String :=
  if r > 1.25 then "Inverted Triangle"
  else if r < 0.85 then "Pear"
  else "Rectangle"

/-- The dict returned by `calculate_body_measurements` on a present frame. -/
structure MeasurementSet where
  shoulder_width : ℝ
  hip_width : ℝ
  leg_length : ℝ
  arm_length : ℝ
  shoulder_hip_ratio : ℝ
  body_type : String

/-- Embeds `PoseEstimator.calculate_body_measurements`
(src/core/pose_estimation.py lines 115-169) on a present frame (an absent
frame returns the empty dict in the source). -/
noncomputable def calculate_body_measurements (f : Frame) : MeasurementSet :=
  let shoulder_width := calculate_distance (f LEFT_SHOULDER) (f RIGHT_SHOULDER)
  let hip_width := calculate_distance (f LEFT_HIP) (f RIGHT_HIP)
  let leg_length := (calculate_distance (f LEFT_HIP) (f LEFT_ANKLE) +
    calculate_distance (f RIGHT_HIP) (f RIGHT_ANKLE)) / 2
  let arm_length := (calculate_distance (f LEFT_SHOULDER) (f LEFT_WRIST) +
    calculate_distance (f RIGHT_SHOULDER) (f RIGHT_WRIST)) / 2
  let shoulder_hip_ratio := if hip_width > 0 then shoulder_width / hip_width else 0
  { shoulder_width := shoulder_width
    hip_width := hip_width
    leg_length := leg_length
    arm_length := arm_length
    shoulder_hip_ratio := shoulder_hip_ratio
    body_type := body_type_from_ratio shoulder_hip_ratio }

/-- C2: the body-type label depends only on the shoulder-hip ratio, which
is `shoulder_width / hip_width` when `hip_width > 0` and `0` otherwise;
ratio above 1.25 gives "Inverted Triangle", ratio below 0.85 gives "Pear",
anything else "Rectangle", and `hip_width = 0` forces ratio 0 and hence
"Pear". -/
theorem body_measurements_label_spec :
    (∀ f : Frame,
      (calculate_body_measurements f).body_type =
        body_type_from_ratio ((calculate_body_measurements f).shoulder_hip_ratio)) ∧
    (∀ f g : Frame,
      (calculate_body_measurements f).shoulder_hip_ratio =
        (calculate_body_measurements g).shoulder_hip_ratio →
      (calculate_body_measurements f).body_type =
        (calculate_body_measurements g).body_type) ∧
    (∀ f : Frame, 0 < (calculate_body_measurements f).hip_width →
      (calculate_body_measurements f).shoulder_hip_ratio =
        (calculate_body_measurements f).shoulder_width /
          (calculate_body_measurements f).hip_width) ∧
    (∀ r : ℝ, r > 1.25 → body_type_from_ratio r = "Inverted Triangle") ∧
    (∀ r : ℝ, r < 0.85 → body_type_from_ratio r = "Pear") ∧
    (∀ r : ℝ, ¬ r > 1.25 → ¬ r < 0.85 → body_type_from_ratio r = "Rectangle") ∧
    (∀ f : Frame, (calculate_body_measurements f).hip_width = 0 →
      (calculate_body_measurements f).shoulder_hip_ratio = 0 ∧
        (calculate_body_measurements f).body_type = "Pear") := by
  refine ⟨fun f => rfl, ?_, ?_, ?_, ?_, ?_, ?_⟩
  · intro f g h
    simp only [calculate_body_measurements] at h ⊢
    exact congrArg body_type_from_ratio h
  · intro f h
    simp only [calculate_body_measurements] at h ⊢
    rw [if_pos h]
  · intro r h
    unfold body_type_from_ratio
    rw [if_pos h]
  · intro r h
    unfold body_type_from_ratio
    rw [if_neg (by push_neg; linarith), if_pos h]
  · intro r h1 h2
    unfold body_type_from_ratio
    rw [if_neg h1, if_neg h2]
  · intro f h
    simp only [calculate_body_measurements] at h ⊢
    rw [h]
    norm_num [body_type_from_ratio]

/-- Embeds `BodyAnalyzer._rule_based_classification`
(src/models/inference/body_analyzer.py lines 83-100): the ratio is read
from the measurements dict with default 0. -/
noncomputable def rule_based_classification (measurements : List (String × ℝ)) : String :=
  let ratio := (measurements.lookup ("shoulder_hip_ratio")).getD 0
  if ratio > 1.25 then "Inverted Triangle"
  else if ratio < 0.85 then "Pear"
  else "Rectangle"

lemma rule_based_singleton (r : ℝ) :
    rule_based_classification [(("shoulder_hip_ratio" : String), r)] =
      body_type_from_ratio r := by
  simp [rule_based_classification, body_type_from_ratio, List.lookup]

/-- C8: the two copies of the body-type rule — the branch inside
`calculate_body_measurements` and `BodyAnalyzer._rule_based_classification`
— produce exactly the same label for every shoulder-hip ratio value (same
thresholds 1.25 / 0.85, same strict comparisons, same label strings). -/
theorem body_type_rule_equivalence :
    (∀ ms : List (String × ℝ),
      rule_based_classification ms =
        body_type_from_ratio ((ms.lookup ("shoulder_hip_ratio")).getD 0)) ∧
    (∀ r : ℝ,
      body_type_from_ratio r =
        rule_based_classification [(("shoulder_hip_ratio" : String), r)]) ∧
    (∀ f : Frame,
      (calculate_body_measurements f).body_type =
        rule_based_classification
          [(("shoulder_hip_ratio" : String),
            (calculate_body_measurements f).shoulder_hip_ratio)]) := by
  refine ⟨fun ms => rfl, fun r => (rule_based_singleton r).symm, fun f => ?_⟩
  rw [rule_based_singleton]
  rfl

/-- Witness for C2 at a concrete frame: with every landmark at the origin,
`hip_width = 0`, so the ratio is 0 and the label is "Pear". -/
theorem body_measurements_label_spec_witness :
    (calculate_body_measurements const_frame).shoulder_hip_ratio = 0 ∧
      (calculate_body_measurements const_frame).body_type = "Pear" := by
  apply body_measurements_label_spec.2.2.2.2.2.2 const_frame
  show Real.sqrt (((lm 0 0).x - (lm 0 0).x) ^ 2 + ((lm 0 0).y - (lm 0 0).y) ^ 2 +
    ((lm 0 0).z - (lm 0 0).z) ^ 2) = 0
  norm_num

/-! ### Feature extraction
(`extract_pose_features`, `calculate_angles`, `calculate_distances`,
src/models/utils/feature_extraction.py lines 14-154). -/

/-- The per-landmark feature loop shared by `extract_pose_features`
(feature_extraction.py lines 27-32) and `PoseEstimator.extract_landmarks`
(pose_estimation.py lines 94-99): four entries per landmark, in index
order. -/
noncomputable def landmark_features (f : Frame) : List (String × Option ℝ) :=
  (List.finRange 33).flatMap (fun i =>
    [("landmark_" ++ toString i.val ++ "_x", some (f i).x),
     ("landmark_" ++ toString i.val ++ "_y", some (f i).y),
     ("landmark_" ++ toString i.val ++ "_z", some (f i).z),
     ("landmark_" ++ toString i.val ++ "_visibility", some (f i).visibility)])

/-- Embeds `calculate_angles` (feature_extraction.py lines 43-94), in the
source's insertion order.  An angle at a degenerate joint is NaN (`none`),
not an exception, so the five entries are always present. -/
noncomputable def calculate_angles (f : Frame) : List (String × Option ℝ) :=
  [("right_elbow_angle",
      calculate_angle (f RIGHT_SHOULDER) (f RIGHT_ELBOW) (f RIGHT_WRIST)),
   ("left_elbow_angle",
      calculate_angle (f LEFT_SHOULDER) (f LEFT_ELBOW) (f LEFT_WRIST)),
   ("right_knee_angle",
      calculate_angle (f RIGHT_HIP) (f RIGHT_KNEE) (f RIGHT_ANKLE)),
   ("left_knee_angle",
      calculate_angle (f LEFT_HIP) (f LEFT_KNEE) (f LEFT_ANKLE)),
   ("torso_angle",
      calculate_angle (f RIGHT_SHOULDER) (f RIGHT_HIP) (f RIGHT_KNEE))]

/-- Embeds `calculate_distances` (feature_extraction.py lines 96-154), in
the source's insertion order. -/
noncomputable def calculate_distances (f : Frame) : List (String × Option ℝ) :=
  [("shoulder_width",
      some (calculate_distance (f LEFT_SHOULDER) (f RIGHT_SHOULDER))),
   ("hip_width",
      some (calculate_distance (f LEFT_HIP) (f RIGHT_HIP))),
   ("torso_length",
      some (calculate_distance (f RIGHT_SHOULDER) (f RIGHT_HIP))),
   ("arm_length",
      some ((calculate_distance (f RIGHT_SHOULDER) (f RIGHT_WRIST) +
        calculate_distance (f LEFT_SHOULDER) (f LEFT_WRIST)) / 2)),
   ("leg_length",
      some ((calculate_distance (f RIGHT_HIP) (f RIGHT_ANKLE) +
        calculate_distance (f LEFT_HIP) (f LEFT_ANKLE)) / 2))]

/-- Embeds `extract_pose_features` (feature_extraction.py lines 14-41) on a
present frame: the dict grows in insertion order — landmark coordinates,
then angles, then distances. -/
noncomputable def extract_pose_features (f : Frame) : List (String × Option ℝ) :=
  landmark_features f ++ calculate_angles f ++ calculate_distances f

/-- The FeatureExtractor boundary: an absent frame yields the empty dict
(`PoseEstimator.extract_landmarks`, pose_estimation.py lines 87-89, and the
classifier's no-detection path), a present frame yields
`extract_pose_features`. -/
noncomputable def feature_extract (frame : Option Frame) : List (String × Option ℝ) :=
  match frame with
  | none => []
  | some f => extract_pose_features f

/-- The 132 per-landmark feature names, `landmark_{i}_{x,y,z,visibility}`
for i in 0..32, in index order. -/
def landmark_feature_names : List String :=
  (List.range 33).flatMap (fun i =>
    ["landmark_" ++ toString i ++ "_x",
     "landmark_" ++ toString i ++ "_y",
     "landmark_" ++ toString i ++ "_z",
     "landmark_" ++ toString i ++ "_visibility"])

/-- The 10 derived feature names: five angles then five distances. -/
def derived_feature_names : List String :=
  ["right_elbow_angle", "left_elbow_angle", "right_knee_angle",
   "left_knee_angle", "torso_angle",
   "shoulder_width", "hip_width", "torso_length", "arm_length", "leg_length"]

set_option maxRecDepth 8192 in
/-- C7: `extract` on an absent frame is the empty mapping; on every present
33-landmark frame it has exactly 142 entries (33·4 landmark entries plus 5
angles plus 5 distances) under the stable names. -/
theorem feature_extraction_spec :
    feature_extract none = [] ∧
    (∀ f : Frame,
      (feature_extract (some f)).map Prod.fst =
        landmark_feature_names ++ derived_feature_names) ∧
    (landmark_feature_names ++ derived_feature_names).length = 142 := by
  refine ⟨rfl, fun f => ?_, by decide⟩
  rfl

/-! ### The classifier boundary
(`ExerciseClassifier`, src/models/inference/exercise_classifier.py, and
`BodyAnalyzer`, src/models/inference/body_analyzer.py).  The external
trained models are opaque oracles whose `predict` either returns a value or
raises (modelled as `Except`); a model that failed to load is `none`. -/

/-- `measurements.get(k, d)` on the measurements dict. -/
def get_measurement (ms : List (String × ℝ)) (k : String) (d : ℝ) : ℝ :=
  (ms.lookup k).getD d

/-- The exercise model oracle: `predict`/`predict_proba` combined into one
call returning (label, confidence) or raising. -/
structure ExerciseModel where
  predict : List (String × Option ℝ) → Except String (String × ℝ)

/-- The classifier's loaded state: `model` and `feature_names` are `none`
when loading failed (exercise_classifier.py lines 40-55). -/
structure ExerciseClassifier where
  model : Option ExerciseModel
  feature_names : Option (List String)

/-- The model-input row (exercise_classifier.py lines 79-87): each feature
name used by the model is taken from the extracted features, and a missing
name is filled with 0. -/
noncomputable def model_input (names : List String) (f : Frame) :
    List (String × Option ℝ) :=
  names.map (fun n => (n, ((extract_pose_features f).lookup n).getD (some 0)))

/-- Embeds `ExerciseClassifier.classify_exercise`
(src/models/inference/exercise_classifier.py lines 57-100): a missing model
or feature-name list, or a raising inference, yields ("Unknown", 0.0). -/
noncomputable def classify_exercise (c : ExerciseClassifier) (f : Frame) : String × ℝ :=
  match c.model, c.feature_names with
  | some m, some names =>
    match m.predict (model_input names f) with
    | Except.ok r => r
    | Except.error _ => ("Unknown", 0)
  | _, _ => ("Unknown", 0)

/-- Embeds `ExerciseClassifier.is_valid_exercise`
(src/models/inference/exercise_classifier.py lines 102-114); the default
threshold is 0.7. -/
def is_valid_exercise (exercise : String) (confidence threshold : ℝ) : Prop :=
  exercise ≠ "Unknown" ∧ confidence ≥ threshold

/-- The body-type model oracle: `predict` returns a label or raises. -/
structure BodyModel where
  predict : List (String × ℝ) → Except String String

/-- The body analyzer's loaded state (body_analyzer.py lines 34-43). -/
structure BodyAnalyzer where
  model : Option BodyModel

/-- The features row built for the body-type model (body_analyzer.py lines
65-71). -/
def body_model_features (ms : List (String × ℝ)) : List (String × ℝ) :=
  [("shoulder_width", get_measurement ms ("shoulder_width") 0),
   ("hip_width", get_measurement ms ("hip_width") 0),
   ("leg_length", get_measurement ms ("leg_length") 0),
   ("arm_length", get_measurement ms ("arm_length") 0),
   ("shoulder_hip_ratio", get_measurement ms ("shoulder_hip_ratio") 0)]

/-- Embeds `BodyAnalyzer._calculate_metrics` (body_analyzer.py lines
102-129).  The measurement values are numpy float64 scalars, so the
unguarded division on line 127 produces NaN (`none`) for a zero
denominator rather than raising. -/
noncomputable def calculate_metrics (ms : List (String × ℝ)) :
    List (String × Option ℝ) :=
  (if (ms.lookup ("leg_length")).isSome ∧
      get_measurement ms ("leg_length") 0 * 1.5 > 0 then
    [("shoulder_height_ratio", some (get_measurement ms ("shoulder_width") 0 /
      (get_measurement ms ("leg_length") 0 * 1.5)))] else []) ++
  (if ((ms.lookup ("arm_length")).isSome ∧ (ms.lookup ("leg_length")).isSome) ∧
      get_measurement ms ("leg_length") 0 * 1.5 > 0 then
    [("arm_height_ratio", some (get_measurement ms ("arm_length") 0 /
      (get_measurement ms ("leg_length") 0 * 1.5)))] else []) ++
  [("upper_lower_ratio",
    if get_measurement ms ("leg_length") 1 = 0 then none
    else some (get_measurement ms ("torso_length") 0 /
      get_measurement ms ("leg_length") 1))]

/-- Embeds `BodyAnalyzer.analyze_body_type` (body_analyzer.py lines 45-81):
no loaded model, or a raising prediction, falls back to the rule-based
classification; the metrics are always computed. -/
noncomputable def analyze_body_type (a : BodyAnalyzer) (ms : List (String × ℝ)) :
    String × List (String × Option ℝ) :=
  let metrics := calculate_metrics ms
  let body_type :=
    match a.model with
    | none => rule_based_classification ms
    | some m =>
      match m.predict (body_model_features ms) with
      | Except.ok bt => bt
      | Except.error _ => rule_based_classification ms
  (body_type, metrics)

/-- C9: classifier unavailability is handled locally: a missing exercise
model or feature-name list, or a raising inference, makes
`classify_exercise` return the explicit ("Unknown", 0.0) outcome, and a
missing body-type model or raising prediction makes `analyze_body_type`
return the deterministic rule-based classification — no exception from
these expected conditions escapes. -/
theorem classifier_fallback_spec :
    (∀ (c : ExerciseClassifier) (f : Frame),
      c.model = none ∨ c.feature_names = none →
      classify_exercise c f = ("Unknown", 0)) ∧
    (∀ (m : ExerciseModel) (names : List String) (f : Frame) (e : String),
      m.predict (model_input names f) = Except.error e →
      classify_exercise ⟨some m, some names⟩ f = ("Unknown", 0)) ∧
    (∀ (a : BodyAnalyzer) (ms : List (String × ℝ)),
      a.model = none →
      (analyze_body_type a ms).1 = rule_based_classification ms) ∧
    (∀ (bm : BodyModel) (ms : List (String × ℝ)) (e : String),
      bm.predict (body_model_features ms) = Except.error e →
      (analyze_body_type ⟨some bm⟩ ms).1 = rule_based_classification ms) := by
  refine ⟨?_, ?_, ?_, ?_⟩
  · rintro ⟨mo, fn⟩ f (h | h)
    · subst h; cases fn <;> rfl
    · subst h; cases mo <;> rfl
  · intro m names f e h
    show (match m.predict (model_input names f) with
      | Except.ok r => r
      | Except.error _ => (("Unknown" : String), (0 : ℝ))) = ("Unknown", 0)
    rw [h]
  · rintro ⟨mo⟩ ms h
    simp only at h
    subst h
    rfl
  · intro bm ms e h
    show (match bm.predict (body_model_features ms) with
      | Except.ok bt => bt
      | Except.error _ => rule_based_classification ms) = rule_based_classification ms
    rw [h]

/-- C10: the validity gate with the default threshold 0.7 passes exactly
the labels other than "Unknown" whose confidence is at least 0.7; in
particular ("Unknown", 0.95) and ("Squat", 0.65) fail and ("Squat", 0.71)
passes. -/
theorem is_valid_exercise_spec :
    (∀ (label : String) (confidence : ℝ),
      is_valid_exercise label confidence 0.7 ↔
        label ≠ "Unknown" ∧ confidence ≥ 0.7) ∧
    ¬ is_valid_exercise ("Unknown") 0.95 0.7 ∧
    ¬ is_valid_exercise ("Squat") 0.65 0.7 ∧
    is_valid_exercise ("Squat") 0.71 0.7 := by
  refine ⟨fun l c => Iff.rfl, ?_, ?_, ?_⟩
  · rintro ⟨h, -⟩
    exact h rfl
  · rintro ⟨-, h⟩
    norm_num at h
  · exact ⟨by decide, by norm_num⟩

end HealthTrainer
